import Mathlib

/-!
# chError.h: the status describer and the checked-call constructs

A shallow embedding of `src/chLib/chError.h`.

* `chGetErrorString` is the `CUresult` specialisation (a `switch` of
  `ErrorValue(X)` cases, four of them under `#if CUDA_VERSION >= 4010`).
* `CUDA_CHECK` and `CUDART_CHECK` are the two checked-call constructs, each in
  its `DEBUG` and its non-`DEBUG` definition, as state transformers on a
  machine that carries the local variable `status` and the stream `stderr`.
* `expandCheck` is the token sequence the preprocessor substitutes for a
  checked call, and `parseStmt` a parser for the statement grammar it is
  dropped into.

The CUDA headers are not part of the repository; what the code takes from them
is gathered in `CudaHeaders` and enters every definition as a parameter.
-/

set_option autoImplicit false

namespace ChError

/-! ## What the code takes from the CUDA headers -/

/-- The names the header `chError.h` uses and `cuda.h` / the runtime headers
declare: the version number, the value of each `CUresult` enumerator (looked up
by its identifier), the runtime success code and the runtime describer. -/
structure CudaHeaders where
  /-- The preprocessor constant `CUDA_VERSION`. -/
  CUDA_VERSION : Nat
  /-- The integer value of the `CUresult` enumerator with the given identifier. -/
  CUresult : String → Int
  /-- The enumerator `cudaSuccess` of `cudaError_t`. -/
  cudaSuccess : Int
  /-- The runtime function `cudaGetErrorString`. -/
  cudaGetErrorString : Int → String

/-! ## The status describer -/

/-- One `case` of a `switch` whose body is a `return` of a string: the label
value and the returned string. -/
structure Case where
  label : Int
  result : String
deriving DecidableEq

/-- The expansion of `ErrorValue(Define)`, `case Define: return #Define;`: the
label is the value of the identifier, the result is the identifier's text. -/
def ErrorValue (h : CudaHeaders) (Define : String) : Case :=
  { label := h.CUresult Define, result := Define }

/-- The identifiers of the `ErrorValue` lines before the `#if`, in source order. -/
def namesBeforeIf : List String :=
  [ "CUDA_SUCCESS",
    "CUDA_ERROR_INVALID_VALUE",
    "CUDA_ERROR_OUT_OF_MEMORY",
    "CUDA_ERROR_NOT_INITIALIZED",
    "CUDA_ERROR_DEINITIALIZED",
    "CUDA_ERROR_PROFILER_DISABLED",
    "CUDA_ERROR_PROFILER_NOT_INITIALIZED",
    "CUDA_ERROR_PROFILER_ALREADY_STARTED",
    "CUDA_ERROR_PROFILER_ALREADY_STOPPED",
    "CUDA_ERROR_NO_DEVICE",
    "CUDA_ERROR_INVALID_DEVICE",
    "CUDA_ERROR_INVALID_IMAGE",
    "CUDA_ERROR_INVALID_CONTEXT",
    "CUDA_ERROR_CONTEXT_ALREADY_CURRENT",
    "CUDA_ERROR_MAP_FAILED",
    "CUDA_ERROR_UNMAP_FAILED",
    "CUDA_ERROR_ARRAY_IS_MAPPED",
    "CUDA_ERROR_ALREADY_MAPPED",
    "CUDA_ERROR_NO_BINARY_FOR_GPU",
    "CUDA_ERROR_ALREADY_ACQUIRED",
    "CUDA_ERROR_NOT_MAPPED",
    "CUDA_ERROR_NOT_MAPPED_AS_ARRAY",
    "CUDA_ERROR_NOT_MAPPED_AS_POINTER",
    "CUDA_ERROR_ECC_UNCORRECTABLE",
    "CUDA_ERROR_UNSUPPORTED_LIMIT",
    "CUDA_ERROR_CONTEXT_ALREADY_IN_USE",
    "CUDA_ERROR_INVALID_SOURCE",
    "CUDA_ERROR_FILE_NOT_FOUND",
    "CUDA_ERROR_SHARED_OBJECT_SYMBOL_NOT_FOUND",
    "CUDA_ERROR_SHARED_OBJECT_INIT_FAILED",
    "CUDA_ERROR_OPERATING_SYSTEM",
    "CUDA_ERROR_INVALID_HANDLE",
    "CUDA_ERROR_NOT_FOUND",
    "CUDA_ERROR_NOT_READY",
    "CUDA_ERROR_LAUNCH_FAILED",
    "CUDA_ERROR_LAUNCH_OUT_OF_RESOURCES",
    "CUDA_ERROR_LAUNCH_TIMEOUT",
    "CUDA_ERROR_LAUNCH_INCOMPATIBLE_TEXTURING",
    "CUDA_ERROR_PEER_ACCESS_ALREADY_ENABLED",
    "CUDA_ERROR_PEER_ACCESS_NOT_ENABLED",
    "CUDA_ERROR_PRIMARY_CONTEXT_ACTIVE",
    "CUDA_ERROR_CONTEXT_IS_DESTROYED" ]

/-- The identifiers of the four `ErrorValue` lines between
`#if CUDA_VERSION >= 4010` and `#endif`. -/
def namesInsideIf : List String :=
  [ "CUDA_ERROR_ASSERT",
    "CUDA_ERROR_TOO_MANY_PEERS",
    "CUDA_ERROR_HOST_MEMORY_ALREADY_REGISTERED",
    "CUDA_ERROR_HOST_MEMORY_NOT_REGISTERED" ]

/-- The identifier of the `ErrorValue` line after the `#endif`. -/
def namesAfterIf : List String :=
  [ "CUDA_ERROR_UNKNOWN" ]

/-- The identifiers of the `ErrorValue` lines that survive preprocessing, in
source order: the conditional group is kept exactly when
`CUDA_VERSION >= 4010`. -/
def switchNames (h : CudaHeaders) : List String :=
  namesBeforeIf ++ (if h.CUDA_VERSION ≥ 4010 then namesInsideIf else []) ++ namesAfterIf

/-- All 47 identifiers that occur in the `switch`, whatever the version. -/
def allNames : List String :=
  namesBeforeIf ++ namesInsideIf ++ namesAfterIf

/-- The `case` list of the `switch` after preprocessing. -/
def switchCases (h : CudaHeaders) : List Case :=
  (switchNames h).map (ErrorValue h)

/-- The string returned after the `switch` when no `case` matched. -/
def fallbackString : String :=
  "chGetErrorString - unknown error value"

/-- Execution of `switch ( status ) { case ...: return ...; ... }` followed by a
`return` of `dflt`: control goes to the case whose label equals `status`, which
returns its string; without such a case the `switch` is left and the statement
after it returns. -/
def runSwitch (cases : List Case) (dflt : String) (status : Int) : String :=
  match cases.find? (fun c => c.label == status) with
  | some c => c.result
  | none => dflt

/-- The specialisation `chGetErrorString( CUresult status )`. -/
def chGetErrorString (h : CudaHeaders) (status : Int) : String :=
  runSwitch (switchCases h) fallbackString status

/-- The primary template `chGetErrorString( T status )`, which the runtime
status type `cudaError_t` selects: it calls through to `cudaGetErrorString`. -/
def chGetErrorStringT (h : CudaHeaders) (status : Int) : String :=
  h.cudaGetErrorString status

/-- A `switch` compiles only when no two `case` labels have the same value; this
is that condition for the `switch` built with group inside the `#if`. -/
def DistinctLabels (h : CudaHeaders) : Prop :=
  (allNames.map h.CUresult).Nodup

/-- The values `enum cudaError_enum` of `cuda.h` (CUDA 4.1) gives the 47
identifiers of the `switch`. -/
def cuda_h_enum : List (String × Int) :=
  [ ("CUDA_SUCCESS", 0),
    ("CUDA_ERROR_INVALID_VALUE", 1),
    ("CUDA_ERROR_OUT_OF_MEMORY", 2),
    ("CUDA_ERROR_NOT_INITIALIZED", 3),
    ("CUDA_ERROR_DEINITIALIZED", 4),
    ("CUDA_ERROR_PROFILER_DISABLED", 5),
    ("CUDA_ERROR_PROFILER_NOT_INITIALIZED", 6),
    ("CUDA_ERROR_PROFILER_ALREADY_STARTED", 7),
    ("CUDA_ERROR_PROFILER_ALREADY_STOPPED", 8),
    ("CUDA_ERROR_NO_DEVICE", 100),
    ("CUDA_ERROR_INVALID_DEVICE", 101),
    ("CUDA_ERROR_INVALID_IMAGE", 200),
    ("CUDA_ERROR_INVALID_CONTEXT", 201),
    ("CUDA_ERROR_CONTEXT_ALREADY_CURRENT", 202),
    ("CUDA_ERROR_MAP_FAILED", 205),
    ("CUDA_ERROR_UNMAP_FAILED", 206),
    ("CUDA_ERROR_ARRAY_IS_MAPPED", 207),
    ("CUDA_ERROR_ALREADY_MAPPED", 208),
    ("CUDA_ERROR_NO_BINARY_FOR_GPU", 209),
    ("CUDA_ERROR_ALREADY_ACQUIRED", 210),
    ("CUDA_ERROR_NOT_MAPPED", 211),
    ("CUDA_ERROR_NOT_MAPPED_AS_ARRAY", 212),
    ("CUDA_ERROR_NOT_MAPPED_AS_POINTER", 213),
    ("CUDA_ERROR_ECC_UNCORRECTABLE", 214),
    ("CUDA_ERROR_UNSUPPORTED_LIMIT", 215),
    ("CUDA_ERROR_CONTEXT_ALREADY_IN_USE", 216),
    ("CUDA_ERROR_INVALID_SOURCE", 300),
    ("CUDA_ERROR_FILE_NOT_FOUND", 301),
    ("CUDA_ERROR_SHARED_OBJECT_SYMBOL_NOT_FOUND", 302),
    ("CUDA_ERROR_SHARED_OBJECT_INIT_FAILED", 303),
    ("CUDA_ERROR_OPERATING_SYSTEM", 304),
    ("CUDA_ERROR_INVALID_HANDLE", 400),
    ("CUDA_ERROR_NOT_FOUND", 500),
    ("CUDA_ERROR_NOT_READY", 600),
    ("CUDA_ERROR_LAUNCH_FAILED", 700),
    ("CUDA_ERROR_LAUNCH_OUT_OF_RESOURCES", 701),
    ("CUDA_ERROR_LAUNCH_TIMEOUT", 702),
    ("CUDA_ERROR_LAUNCH_INCOMPATIBLE_TEXTURING", 703),
    ("CUDA_ERROR_PEER_ACCESS_ALREADY_ENABLED", 704),
    ("CUDA_ERROR_PEER_ACCESS_NOT_ENABLED", 705),
    ("CUDA_ERROR_PRIMARY_CONTEXT_ACTIVE", 708),
    ("CUDA_ERROR_CONTEXT_IS_DESTROYED", 709),
    ("CUDA_ERROR_ASSERT", 710),
    ("CUDA_ERROR_TOO_MANY_PEERS", 711),
    ("CUDA_ERROR_HOST_MEMORY_ALREADY_REGISTERED", 712),
    ("CUDA_ERROR_HOST_MEMORY_NOT_REGISTERED", 713),
    ("CUDA_ERROR_UNKNOWN", 999) ]

/-- Value of an identifier in an enumerator list (identifiers outside the list
are never looked up by the `switch`; they read as `-1`). -/
def enumValue (decls : List (String × Int)) (name : String) : Int :=
  match decls.find? (fun d => d.1 == name) with
  | some d => d.2
  | none => -1

/-- The headers of one concrete toolkit: the `CUresult` values of CUDA 4.1,
`cudaSuccess = 0`, a stand-in runtime describer, and the given version
number. -/
def cudaToolkit (version : Nat) : CudaHeaders :=
  { CUDA_VERSION := version
    CUresult := enumValue cuda_h_enum
    cudaSuccess := 0
    cudaGetErrorString := fun c => if c = 0 then "no error" else "runtime error" }

/-! ## fprintf -/

/-- An argument passed to `fprintf` after the format string. -/
inductive PrintfArg
  /-- An `int` argument (also an enumeration value, after promotion). -/
  | int (i : Int)
  /-- A `const char *` argument. -/
  | str (s : String)

/-- What `%d` prints for an `int`: its decimal digits, with a minus sign when
negative. -/
def formatDec (i : Int) : String :=
  toString i

/-- What `%x` prints: the argument read as a 32-bit `unsigned int`, in
hexadecimal with the digits `a` to `f` in lowercase. -/
def formatHex (i : Int) : String :=
  String.mk (Nat.toDigits 16 (i % 2 ^ 32).toNat)

/-- The text `fprintf` produces from a format and its arguments, for the
conversions `%d`, `%x` and `%s` the header uses; `none` when a conversion has
no argument of its type or is another one (undefined or outside this model). -/
def formatPrintf : List Char → List PrintfArg → Option String
  | [], _ => some ""
  | c :: fmt, args =>
    if c = '%' then
      match fmt, args with
      | d :: fmt', a :: args' =>
        if d = 'd' then
          match a with
          | .int i => (formatPrintf fmt' args').map (formatDec i ++ ·)
          | .str _ => none
        else if d = 'x' then
          match a with
          | .int i => (formatPrintf fmt' args').map (formatHex i ++ ·)
          | .str _ => none
        else if d = 's' then
          match a with
          | .str s => (formatPrintf fmt' args').map (s ++ ·)
          | .int _ => none
        else none
      | _, _ => none
    else (formatPrintf fmt args).map (String.singleton c ++ ·)

/-! ## The machine the checked calls run on -/

/-- The state a checked call can touch: the local variable `status`, what has
been written to `stderr` (one entry per `fprintf` call), and everything else
(`world`, which the wrapped operation may read and change). -/
structure Machine (W : Type) where
  world : W
  status : Int
  stderr : List String

/-- Where control is after a statement: at the next statement, or at the label
`Error` after a `goto`. -/
inductive Control
  | next
  | gotoError
deriving DecidableEq

/-- A statement: from a state to where control goes and the new state; `none`
when the run is undefined or the loop budget is spent. -/
abbrev Stmt (W : Type) := Machine W → Option (Control × Machine W)

/-- An expression of status type: its value and the state after its side
effects. -/
abbrev Expr (W : Type) := Machine W → Int × Machine W

/-- The statement `(status) = (fn);`: `fn` is evaluated, then its value is
stored in `status`. -/
def assignStatus {W : Type} (fn : Expr W) : Stmt W := fun m =>
  some (Control.next, { (fn m).2 with status := (fn m).1 })

/-- The statement `goto Error;`. -/
def gotoError {W : Type} : Stmt W := fun m =>
  some (Control.gotoError, m)

/-- Two statements in sequence, `s t`: `t` runs only when `s` falls through. -/
def seq {W : Type} (s t : Stmt W) : Stmt W := fun m =>
  match s m with
  | none => none
  | some (Control.gotoError, m') => some (Control.gotoError, m')
  | some (Control.next, m') => t m'

/-- The statement `if ( c ) { t }` for a condition without side effects. -/
def ifThen {W : Type} (c : Machine W → Bool) (t : Stmt W) : Stmt W := fun m =>
  if c m then t m else some (Control.next, m)

/-- The statement `fprintf( stderr, fmt, args... );`. -/
def fprintfStderr {W : Type} (fmt : String) (args : Machine W → List PrintfArg) : Stmt W :=
  fun m =>
    match formatPrintf fmt.data (args m) with
    | none => none
    | some text => some (Control.next, { m with stderr := m.stderr ++ [text] })

/-- The statement `do { body } while ( c );`, run with a budget of `fuel`
iterations: the body runs, a `goto` in it leaves the loop, otherwise the
condition decides whether the body runs again. -/
def doWhile {W : Type} (body : Stmt W) (c : Machine W → Bool) : Nat → Stmt W
  | 0 => fun _ => none
  | fuel + 1 => fun m =>
    match body m with
    | none => none
    | some (Control.gotoError, m') => some (Control.gotoError, m')
    | some (Control.next, m') =>
      if c m' then doWhile body c fuel m' else some (Control.next, m')

/-- The constant `CUDA_SUCCESS` as `cuda.h` defines it. -/
def CUDA_SUCCESS (h : CudaHeaders) : Int :=
  h.CUresult "CUDA_SUCCESS"

/-- The checked call `CUDART_CHECK( fn )` written at line `line` of file `file`,
`fnText` being the text of `fn` (what `#fn` gives); `DEBUG` says whether that
name is defined, which selects the definition. -/
def CUDART_CHECK {W : Type} (h : CudaHeaders) (DEBUG : Bool) (line : Nat) (file fnText : String)
    (fn : Expr W) (fuel : Nat) : Stmt W :=
  if DEBUG then
    doWhile
      (seq (assignStatus fn)
        (ifThen (fun m => h.cudaSuccess != m.status)
          (seq
            (fprintfStderr
              ("CUDA Runtime Failure (line %d of file %s):\n\t" ++
                "%s returned 0x%x (%s)\n")
              (fun m => [.int line, .str file, .str fnText, .int m.status,
                .str (chGetErrorStringT h m.status)]))
            gotoError)))
      (fun _ => (0 : Int) != 0) fuel
  else
    doWhile
      (seq (assignStatus fn)
        (ifThen (fun m => h.cudaSuccess != m.status)
          gotoError))
      (fun _ => (0 : Int) != 0) fuel

/-- The checked call `CUDA_CHECK( fn )` written at line `line` of file `file`,
`fnText` being the text of `fn` (what `#fn` gives); `DEBUG` says whether that
name is defined, which selects the definition. -/
def CUDA_CHECK {W : Type} (h : CudaHeaders) (DEBUG : Bool) (line : Nat) (file fnText : String)
    (fn : Expr W) (fuel : Nat) : Stmt W :=
  if DEBUG then
    doWhile
      (seq (assignStatus fn)
        (ifThen (fun m => CUDA_SUCCESS h != m.status)
          (seq
            (fprintfStderr
              ("CUDA Runtime Failure (line %d of file %s):\n\t%s " ++
                "returned 0x%x (%s)\n")
              (fun m => [.int line, .str file, .str fnText, .int m.status,
                .str (chGetErrorString h m.status)]))
            gotoError)))
      (fun _ => (0 : Int) != 0) fuel
  else
    doWhile
      (seq (assignStatus fn)
        (ifThen (fun m => CUDA_SUCCESS h != m.status)
          gotoError))
      (fun _ => (0 : Int) != 0) fuel

/-- The diagnostic in its documented layout,
`<category> Failure (line <N> of file <F>):\n\t<expression> returned 0x<hex-code> (<description>)\n`,
with the category `CUDA Runtime`; that both format strings of the header
produce it is `formatPrintf_driver` and `formatPrintf_runtime`. -/
def diagnostic (line : Nat) (file fnText : String) (code : Int) (description : String) :
    String :=
  "CUDA Runtime Failure (line " ++ formatDec line ++ " of file " ++ file ++ "):\n\t" ++
    fnText ++ " returned 0x" ++ formatHex code ++ " (" ++ description ++ ")\n"

/-- An operation that counts its own evaluations in the world and returns the
code `code n` at its evaluation number `n`. -/
def countedCall (code : Nat → Int) : Expr Nat := fun m =>
  (code m.world, { m with world := m.world + 1 })

/-- The two code spaces: the driver API (`CUresult`, checked by `CUDA_CHECK`)
and the runtime API (`cudaError_t`, checked by `CUDART_CHECK`). -/
inductive CodeSpace
  | driver
  | runtime
deriving DecidableEq

/-- The success code a checked call of the code space compares with. -/
def successCode (h : CudaHeaders) : CodeSpace → Int
  | .driver => CUDA_SUCCESS h
  | .runtime => h.cudaSuccess

/-- The overload of `chGetErrorString` the type of `status` selects. -/
def describe (h : CudaHeaders) : CodeSpace → Int → String
  | .driver => chGetErrorString h
  | .runtime => chGetErrorStringT h

/-- The checked call of the code space: `CUDA_CHECK` or `CUDART_CHECK`. -/
def checkedCall {W : Type} (h : CudaHeaders) (space : CodeSpace) (DEBUG : Bool) (line : Nat)
    (file fnText : String) (fn : Expr W) (fuel : Nat) : Stmt W :=
  match space with
  | .driver => CUDA_CHECK h DEBUG line file fnText fn fuel
  | .runtime => CUDART_CHECK h DEBUG line file fnText fn fuel

/-! ## The checked call as program text -/

/-- Preprocessing tokens, as far as the statement grammar tells them apart. -/
inductive Tok
  | kwDo
  | kwWhile
  | kwIf
  | kwElse
  | kwGoto
  | lparen
  | rparen
  | lbrace
  | rbrace
  | semi
  /-- An identifier, constant, operator or comma. -/
  | word (s : String)
  /-- A string literal. -/
  | strLit (s : String)
deriving DecidableEq

/-- The replacement list of `CUDART_CHECK( fn )` with the argument substituted,
in the `DEBUG` and in the other definition; `fnText` is the spelling of the
argument, which `#fn` turns into a string literal. -/
def expandCUDART_CHECK (DEBUG : Bool) (fn : List Tok) (fnText : String) : List Tok :=
  if DEBUG then
    [.kwDo, .lbrace,
      .lparen, .word "status", .rparen, .word "=", .lparen] ++ fn ++ [.rparen, .semi,
      .kwIf, .lparen, .word "cudaSuccess", .word "!=", .lparen, .word "status", .rparen,
        .rparen, .lbrace,
        .word "fprintf", .lparen, .word "stderr", .word ",",
          .strLit "CUDA Runtime Failure (line %d of file %s):\n\t",
          .strLit "%s returned 0x%x (%s)\n", .word ",",
          .word "__LINE__", .word ",", .word "__FILE__", .word ",", .strLit fnText,
          .word ",", .word "status", .word ",",
          .word "chGetErrorString", .lparen, .word "status", .rparen, .rparen, .semi,
        .kwGoto, .word "Error", .semi,
      .rbrace,
    .rbrace, .kwWhile, .lparen, .word "0", .rparen, .semi]
  else
    [.kwDo, .lbrace,
      .word "status", .word "=", .lparen] ++ fn ++ [.rparen, .semi,
      .kwIf, .lparen, .word "cudaSuccess", .word "!=", .lparen, .word "status", .rparen,
        .rparen, .lbrace,
        .kwGoto, .word "Error", .semi,
      .rbrace,
    .rbrace, .kwWhile, .lparen, .word "0", .rparen, .semi]

/-- The replacement list of `CUDA_CHECK( fn )` with the argument substituted,
in the `DEBUG` and in the other definition. -/
def expandCUDA_CHECK (DEBUG : Bool) (fn : List Tok) (fnText : String) : List Tok :=
  if DEBUG then
    [.kwDo, .lbrace,
      .lparen, .word "status", .rparen, .word "=", .lparen] ++ fn ++ [.rparen, .semi,
      .kwIf, .lparen, .word "CUDA_SUCCESS", .word "!=", .lparen, .word "status", .rparen,
        .rparen, .lbrace,
        .word "fprintf", .lparen, .word "stderr", .word ",",
          .strLit "CUDA Runtime Failure (line %d of file %s):\n\t%s ",
          .strLit "returned 0x%x (%s)\n", .word ",",
          .word "__LINE__", .word ",", .word "__FILE__", .word ",", .strLit fnText,
          .word ",", .word "status", .word ",",
          .word "chGetErrorString", .lparen, .word "status", .rparen, .rparen, .semi,
        .kwGoto, .word "Error", .semi,
      .rbrace,
    .rbrace, .kwWhile, .lparen, .word "0", .rparen, .semi]
  else
    [.kwDo, .lbrace,
      .lparen, .word "status", .rparen, .word "=", .lparen] ++ fn ++ [.rparen, .semi,
      .kwIf, .lparen, .word "CUDA_SUCCESS", .word "!=", .lparen, .word "status", .rparen,
        .rparen, .lbrace,
        .kwGoto, .word "Error", .semi,
      .rbrace,
    .rbrace, .kwWhile, .lparen, .word "0", .rparen, .semi]

/-- The replacement list of the checked call of a code space. -/
def expandCheck (space : CodeSpace) (DEBUG : Bool) (fn : List Tok) (fnText : String) :
    List Tok :=
  match space with
  | .driver => expandCUDA_CHECK DEBUG fn fnText
  | .runtime => expandCUDART_CHECK DEBUG fn fnText

/-- Statements of the C++ grammar the expansion uses. -/
inductive CStmt
  /-- The empty statement `;`. -/
  | null
  /-- An expression statement `e ;`. -/
  | expr (e : List Tok)
  /-- The statement `goto label ;`. -/
  | goto (label : String)
  /-- A compound statement `{ ... }`. -/
  | compound (body : List CStmt)
  /-- The statement `if ( c ) t` without `else`. -/
  | ifThen (c : List Tok) (t : CStmt)
  /-- The statement `if ( c ) t else e`. -/
  | ifElse (c : List Tok) (t e : CStmt)
  /-- The statement `do body while ( c ) ;`. -/
  | doWhile (body : CStmt) (c : List Tok)

/-- Why parsing stopped without a result. -/
inductive ParseError
  | syntaxError
  | outOfFuel
deriving DecidableEq

/-- The tokens of an expression up to the token `stop` outside all parentheses
(`)` for a condition, `;` for an expression statement), and the tokens after
`stop`; `depth` counts the parentheses open so far. Keywords and braces do not
occur in an expression. -/
def scanExpr (stop : Tok) : Nat → List Tok → Option (List Tok × List Tok)
  | _, [] => none
  | depth, t :: rest =>
    if depth = 0 ∧ t = stop then some ([], rest)
    else
      match t with
      | .lparen => (scanExpr stop (depth + 1) rest).map (fun p => (t :: p.1, p.2))
      | .rparen =>
        match depth with
        | 0 => none
        | d + 1 => (scanExpr stop d rest).map (fun p => (t :: p.1, p.2))
      | .word _ => (scanExpr stop depth rest).map (fun p => (t :: p.1, p.2))
      | .strLit _ => (scanExpr stop depth rest).map (fun p => (t :: p.1, p.2))
      | _ => none

/-- A sequence of statements, each parsed by `p`, up to the end of the input or
a closing brace (which is left in the input). -/
def parseSeq (p : List Tok → Except ParseError (CStmt × List Tok)) :
    Nat → List Tok → Except ParseError (List CStmt × List Tok)
  | 0, _ => .error .outOfFuel
  | fuel + 1, toks =>
    match toks with
    | [] => .ok ([], [])
    | .rbrace :: _ => .ok ([], toks)
    | _ =>
      match p toks with
      | .error e => .error e
      | .ok (s, rest) =>
        match parseSeq p fuel rest with
        | .error e => .error e
        | .ok (ss, rest') => .ok (s :: ss, rest')

/-- One statement from the front of the input, and the input after it. An
`else` belongs to the `if` whose branch has just ended, and only there. -/
def parseStmt : Nat → List Tok → Except ParseError (CStmt × List Tok)
  | 0, _ => .error .outOfFuel
  | fuel + 1, toks =>
    match toks with
    | [] => .error .syntaxError
    | .semi :: rest => .ok (.null, rest)
    | .kwGoto :: rest =>
      match rest with
      | .word l :: .semi :: rest' => .ok (.goto l, rest')
      | _ => .error .syntaxError
    | .lbrace :: rest =>
      match parseSeq (parseStmt fuel) fuel rest with
      | .error e => .error e
      | .ok (ss, .rbrace :: rest') => .ok (.compound ss, rest')
      | .ok _ => .error .syntaxError
    | .kwIf :: rest =>
      match rest with
      | .lparen :: rest0 =>
        match scanExpr .rparen 0 rest0 with
        | none => .error .syntaxError
        | some (c, rest1) =>
          match parseStmt fuel rest1 with
          | .error e => .error e
          | .ok (t, .kwElse :: rest2) =>
            match parseStmt fuel rest2 with
            | .error e => .error e
            | .ok (e, rest3) => .ok (.ifElse c t e, rest3)
          | .ok (t, rest2) => .ok (.ifThen c t, rest2)
      | _ => .error .syntaxError
    | .kwDo :: rest =>
      match parseStmt fuel rest with
      | .error e => .error e
      | .ok (b, .kwWhile :: .lparen :: rest1) =>
        match scanExpr .rparen 0 rest1 with
        | some (c, .semi :: rest2) => .ok (.doWhile b c, rest2)
        | _ => .error .syntaxError
      | .ok _ => .error .syntaxError
    | _ =>
      match scanExpr .semi 0 toks with
      | some (e, rest) => .ok (.expr e, rest)
      | none => .error .syntaxError

/-- The statements of a whole function body (the tokens between its braces). -/
def parseBody (fuel : Nat) (toks : List Tok) : Except ParseError (List CStmt) :=
  match parseSeq (parseStmt fuel) fuel toks with
  | .error e => .error e
  | .ok (ss, []) => .ok ss
  | .ok _ => .error .syntaxError

/-- The text `if ( c ) CHECK( fn ); else g;` after preprocessing, `CHECK` being
the checked call of the code space. -/
def ifCheckElse (space : CodeSpace) (DEBUG : Bool) (c fn g : String) : List Tok :=
  [.kwIf, .lparen, .word c, .rparen] ++ expandCheck space DEBUG [.word fn] fn ++
    [.semi, .kwElse, .word g, .semi]

/-- The text `if ( c ) { CHECK( fn ); } else g;` after preprocessing. -/
def ifBlockCheckElse (space : CodeSpace) (DEBUG : Bool) (c fn g : String) : List Tok :=
  [.kwIf, .lparen, .word c, .rparen, .lbrace] ++ expandCheck space DEBUG [.word fn] fn ++
    [.semi, .rbrace, .kwElse, .word g, .semi]


/-! ### Lemmas on the describer -/

theorem length_allNames : allNames.length = 47 := by decide

theorem cuda_h_enum_nodup : (allNames.map (enumValue cuda_h_enum)).Nodup := by decide

theorem cudaToolkit_distinct (version : Nat) : DistinctLabels (cudaToolkit version) :=
  cuda_h_enum_nodup

theorem switchNames_new (h : CudaHeaders) (hv : h.CUDA_VERSION ≥ 4010) :
    switchNames h = allNames := by
  simp [switchNames, allNames, hv]

theorem switchNames_old (h : CudaHeaders) (hv : h.CUDA_VERSION < 4010) :
    switchNames h = namesBeforeIf ++ namesAfterIf := by
  have hn : ¬ h.CUDA_VERSION ≥ 4010 := by omega
  simp [switchNames, hn]

theorem switchNames_subset (h : CudaHeaders) {X : String} (hX : X ∈ switchNames h) :
    X ∈ allNames := by
  unfold switchNames at hX
  unfold allNames
  split at hX
  · exact hX
  · simp only [List.append_nil, List.mem_append] at hX
    simp only [List.mem_append]
    rcases hX with hX | hX
    · exact Or.inl (Or.inl hX)
    · exact Or.inr hX

theorem fallbackString_not_name : fallbackString ∉ allNames := by decide

theorem empty_not_name : "" ∉ allNames := by decide

theorem insideIf_not_outside : ∀ X ∈ namesInsideIf, X ∉ namesBeforeIf ++ namesAfterIf := by
  decide

theorem insideIf_subset {X : String} (hX : X ∈ namesInsideIf) : X ∈ allNames := by
  unfold allNames
  simp only [List.mem_append]
  exact Or.inl (Or.inr hX)

/-- What a `switch` of returning cases computes: the string of a case whose
label is the scrutinee, or the default when no label is. -/
theorem runSwitch_spec (cases : List Case) (dflt : String) (status : Int) :
    (∃ c ∈ cases, c.label = status ∧ runSwitch cases dflt status = c.result) ∨
    ((∀ c ∈ cases, c.label ≠ status) ∧ runSwitch cases dflt status = dflt) := by
  unfold runSwitch
  cases hf : cases.find? (fun c => c.label == status) with
  | none =>
    right
    refine ⟨?_, rfl⟩
    intro c hc heq
    have := List.find?_eq_none.mp hf c hc
    simp [heq] at this
  | some c =>
    left
    refine ⟨c, List.mem_of_find?_eq_some hf, ?_, rfl⟩
    have := List.find?_some hf
    simpa using this

/-- The describer returns the name of a case that matches, or the fallback when
none does. -/
theorem chGetErrorString_spec (h : CudaHeaders) (status : Int) :
    (∃ X ∈ switchNames h, h.CUresult X = status ∧ chGetErrorString h status = X) ∨
    ((∀ X ∈ switchNames h, h.CUresult X ≠ status) ∧
      chGetErrorString h status = fallbackString) := by
  unfold chGetErrorString
  rcases runSwitch_spec (switchCases h) fallbackString status with ⟨c, hc, hl, hr⟩ | ⟨hno, hr⟩
  · left
    simp only [switchCases, List.mem_map] at hc
    obtain ⟨X, hX, rfl⟩ := hc
    exact ⟨X, hX, hl, hr⟩
  · right
    refine ⟨?_, hr⟩
    intro X hX
    exact hno (ErrorValue h X) (List.mem_map.mpr ⟨X, hX, rfl⟩)

/-- With pairwise distinct labels every name of the `switch` is returned for
its own value. -/
theorem chGetErrorString_of_mem (h : CudaHeaders) (hd : DistinctLabels h)
    {X : String} (hX : X ∈ switchNames h) : chGetErrorString h (h.CUresult X) = X := by
  rcases chGetErrorString_spec h (h.CUresult X) with ⟨Y, hY, hval, hr⟩ | ⟨hno, _⟩
  · have hYX : Y = X :=
      List.inj_on_of_nodup_map hd (switchNames_subset h hY) (switchNames_subset h hX) hval
    rw [hr, hYX]
  · exact absurd rfl (hno X hX)

/-- A value no case label has is described by the fallback string. -/
theorem chGetErrorString_of_not_mem (h : CudaHeaders) (status : Int)
    (hno : ∀ X ∈ switchNames h, h.CUresult X ≠ status) :
    chGetErrorString h status = fallbackString := by
  rcases chGetErrorString_spec h status with ⟨Y, hY, hval, _⟩ | ⟨_, hr⟩
  · exact absurd hval (hno Y hY)
  · exact hr


/-! ## Theorems on the describer -/

/-- C1: built with `CUDA_VERSION >= 4010` the `switch` has 47 cases, and for
each of their names `X` the describer applied to the value of `X` returns the
text `X`; in particular for `CUDA_SUCCESS` and `CUDA_ERROR_OUT_OF_MEMORY`. -/
theorem chGetErrorString_returns_name (h : CudaHeaders) (hv : h.CUDA_VERSION ≥ 4010)
    (hd : DistinctLabels h) :
    (switchCases h).length = 47 ∧
    (∀ X ∈ allNames, chGetErrorString h (h.CUresult X) = X) ∧
    chGetErrorString h (h.CUresult "CUDA_SUCCESS") = "CUDA_SUCCESS" ∧
    chGetErrorString h (h.CUresult "CUDA_ERROR_OUT_OF_MEMORY") = "CUDA_ERROR_OUT_OF_MEMORY" := by
  have hall : ∀ X ∈ allNames, chGetErrorString h (h.CUresult X) = X := by
    intro X hX
    exact chGetErrorString_of_mem h hd (by rw [switchNames_new h hv]; exact hX)
  refine ⟨?_, hall, hall _ (by decide), hall _ (by decide)⟩
  simp [switchCases, switchNames_new h hv, length_allNames]

/-- The preceding theorem at the headers of the CUDA 4.1 toolkit. -/
theorem chGetErrorString_returns_name_witness :
    (cudaToolkit 4010).CUDA_VERSION ≥ 4010 ∧ DistinctLabels (cudaToolkit 4010) ∧
    ((switchCases (cudaToolkit 4010)).length = 47 ∧
     (∀ X ∈ allNames,
        chGetErrorString (cudaToolkit 4010) ((cudaToolkit 4010).CUresult X) = X) ∧
     chGetErrorString (cudaToolkit 4010) 0 = "CUDA_SUCCESS" ∧
     chGetErrorString (cudaToolkit 4010) 2 = "CUDA_ERROR_OUT_OF_MEMORY") :=
  ⟨by decide, cudaToolkit_distinct 4010,
    chGetErrorString_returns_name (cudaToolkit 4010) (by decide) (cudaToolkit_distinct 4010)⟩

/-- C2: a value that is the value of no case label is described by the fixed
fallback string `"chGetErrorString - unknown error value"`, which is not empty;
and the describer yields a non-empty string for every integer. -/
theorem chGetErrorString_fallback (h : CudaHeaders) (status : Int)
    (hno : ∀ X ∈ switchNames h, h.CUresult X ≠ status) :
    chGetErrorString h status = "chGetErrorString - unknown error value" ∧
    chGetErrorString h status ≠ "" ∧
    (∀ s : Int, ∃ str : String, chGetErrorString h s = str ∧ str ≠ "") := by
  have hne : fallbackString ≠ "" := by decide
  refine ⟨chGetErrorString_of_not_mem h status hno, ?_, ?_⟩
  · rw [chGetErrorString_of_not_mem h status hno]
    exact hne
  · intro s
    refine ⟨_, rfl, ?_⟩
    rcases chGetErrorString_spec h s with ⟨Y, hY, _, hr⟩ | ⟨_, hr⟩
    · rw [hr]
      intro hY0
      exact empty_not_name (hY0 ▸ switchNames_subset h hY)
    · rw [hr]
      exact hne

/-- The preceding theorem at the value 999999 and the headers of the CUDA 4.1 toolkit. -/
theorem chGetErrorString_fallback_witness :
    (∀ X ∈ switchNames (cudaToolkit 4010), (cudaToolkit 4010).CUresult X ≠ 999999) ∧
    chGetErrorString (cudaToolkit 4010) 999999 = "chGetErrorString - unknown error value" :=
  ⟨by decide, (chGetErrorString_fallback (cudaToolkit 4010) 999999 (by decide)).1⟩


/-! ### Lemmas on the checked calls -/

theorem formatPrintf_runtime (line : Nat) (file fnText : String) (code : Int) (d : String) :
    formatPrintf ("CUDA Runtime Failure (line %d of file %s):\n\t" ++
        "%s returned 0x%x (%s)\n").data
      [.int line, .str file, .str fnText, .int code, .str d]
    = some (diagnostic line file fnText code d) := by
  simp [formatPrintf, String.singleton, diagnostic]
  apply String.ext
  simp

theorem formatPrintf_driver (line : Nat) (file fnText : String) (code : Int) (d : String) :
    formatPrintf ("CUDA Runtime Failure (line %d of file %s):\n\t%s " ++
        "returned 0x%x (%s)\n").data
      [.int line, .str file, .str fnText, .int code, .str d]
    = some (diagnostic line file fnText code d) := by
  simp [formatPrintf, String.singleton, diagnostic]
  apply String.ext
  simp


theorem CUDA_CHECK_run {W : Type} (h : CudaHeaders) (DEBUG : Bool)
    (line : Nat) (file fnText : String) (fn : Expr W) (fuel : Nat) (m : Machine W) :
    CUDA_CHECK h DEBUG line file fnText fn (fuel + 1) m =
      some (if (fn m).1 = CUDA_SUCCESS h then Control.next else Control.gotoError,
        { world := (fn m).2.world
          status := (fn m).1
          stderr := (fn m).2.stderr ++
            (if DEBUG = true ∧ (fn m).1 ≠ CUDA_SUCCESS h then
              [diagnostic line file fnText (fn m).1 (chGetErrorString h (fn m).1)]
            else []) }) := by
  by_cases hs : (fn m).1 = CUDA_SUCCESS h
  · have hb : (CUDA_SUCCESS h != (fn m).1) = false := by simp [hs]
    cases DEBUG <;>
      simp only [CUDA_CHECK, doWhile, seq, assignStatus, ifThen, gotoError, hb] <;>
      simp [hs]
  · have hs' : ¬ CUDA_SUCCESS h = (fn m).1 := fun e => hs e.symm
    have hb : (CUDA_SUCCESS h != (fn m).1) = true := by simp [hs']
    cases DEBUG <;>
      simp only [CUDA_CHECK, doWhile, seq, assignStatus, ifThen, gotoError, fprintfStderr,
        hb, formatPrintf_driver] <;>
      simp [hs, hs']

theorem CUDART_CHECK_run {W : Type} (h : CudaHeaders) (DEBUG : Bool)
    (line : Nat) (file fnText : String) (fn : Expr W) (fuel : Nat) (m : Machine W) :
    CUDART_CHECK h DEBUG line file fnText fn (fuel + 1) m =
      some (if (fn m).1 = h.cudaSuccess then Control.next else Control.gotoError,
        { world := (fn m).2.world
          status := (fn m).1
          stderr := (fn m).2.stderr ++
            (if DEBUG = true ∧ (fn m).1 ≠ h.cudaSuccess then
              [diagnostic line file fnText (fn m).1 (chGetErrorStringT h (fn m).1)]
            else []) }) := by
  by_cases hs : (fn m).1 = h.cudaSuccess
  · have hb : (h.cudaSuccess != (fn m).1) = false := by simp [hs]
    cases DEBUG <;>
      simp only [CUDART_CHECK, doWhile, seq, assignStatus, ifThen, gotoError, hb] <;>
      simp [hs]
  · have hs' : ¬ h.cudaSuccess = (fn m).1 := fun e => hs e.symm
    have hb : (h.cudaSuccess != (fn m).1) = true := by simp [hs']
    cases DEBUG <;>
      simp only [CUDART_CHECK, doWhile, seq, assignStatus, ifThen, gotoError, fprintfStderr,
        hb, formatPrintf_runtime] <;>
      simp [hs, hs']

/-- What a checked call does, in every build and on every result of the wrapped
operation: the operation is run once, its value is stored in `status`, the
`DEBUG` build appends the diagnostic when the value is not the success code,
and control goes to `Error` exactly when the value is not the success code. -/
theorem checkedCall_run {W : Type} (h : CudaHeaders) (space : CodeSpace) (DEBUG : Bool)
    (line : Nat) (file fnText : String) (fn : Expr W) (fuel : Nat) (m : Machine W) :
    checkedCall h space DEBUG line file fnText fn (fuel + 1) m =
      some (if (fn m).1 = successCode h space then Control.next else Control.gotoError,
        { world := (fn m).2.world
          status := (fn m).1
          stderr := (fn m).2.stderr ++
            (if DEBUG = true ∧ (fn m).1 ≠ successCode h space then
              [diagnostic line file fnText (fn m).1 (describe h space (fn m).1)]
            else []) }) := by
  cases space
  · exact CUDA_CHECK_run h DEBUG line file fnText fn fuel m
  · exact CUDART_CHECK_run h DEBUG line file fnText fn fuel m

/-! ## Theorems on the checked calls -/

/-- C3: when the wrapped operation yields a code other than the success code of
its code space, the checked call (either one, in the `DEBUG` and in the other
build) ends in the `goto Error`, with `status` holding the code the operation
returned, and a statement that follows the check is not run. -/
theorem checkedCall_failure {W : Type} (h : CudaHeaders) (space : CodeSpace) (DEBUG : Bool)
    (line : Nat) (file fnText : String) (fn : Expr W) (fuel : Nat) (m : Machine W)
    (following : Stmt W) (hfail : (fn m).1 ≠ successCode h space) :
    ∃ m', checkedCall h space DEBUG line file fnText fn (fuel + 1) m
          = some (Control.gotoError, m') ∧
      m'.status = (fn m).1 ∧
      m'.world = (fn m).2.world ∧
      seq (checkedCall h space DEBUG line file fnText fn (fuel + 1)) following m
          = some (Control.gotoError, m') := by
  have hrun := checkedCall_run h space DEBUG line file fnText fn fuel m
  rw [if_neg hfail] at hrun
  refine ⟨_, hrun, rfl, rfl, ?_⟩
  simp only [seq]
  rw [hrun]

/-- The preceding theorem at `CUDA_CHECK` in a `DEBUG` build around an operation that returns 2 (out of memory), followed by an assignment to `status`. -/
theorem checkedCall_failure_witness :
    ((fun m => (2, m) : Expr Unit) ⟨(), 0, []⟩).1 ≠ successCode (cudaToolkit 4010) .driver ∧
    ∃ m', checkedCall (cudaToolkit 4010) .driver true 12 "a.cu" "cuInit(0)"
            (fun m => (2, m) : Expr Unit) 1 ⟨(), 0, []⟩ = some (Control.gotoError, m') ∧
      m'.status = 2 ∧
      m'.world = () ∧
      seq (checkedCall (cudaToolkit 4010) .driver true 12 "a.cu" "cuInit(0)"
            (fun m => (2, m) : Expr Unit) 1) (assignStatus (fun m => (7, m))) ⟨(), 0, []⟩
          = some (Control.gotoError, m') :=
  ⟨by decide,
    checkedCall_failure (cudaToolkit 4010) .driver true 12 "a.cu" "cuInit(0)"
      (fun m => (2, m)) 0 ⟨(), 0, []⟩ (assignStatus (fun m => (7, m))) (by decide)⟩

/-- C4: when the wrapped operation yields the success code of its code space,
the checked call (either one, in the `DEBUG` and in the other build) falls
through, so that the statement after it runs next; no `goto Error` is taken,
nothing is written, and `status` equals the success code. -/
theorem checkedCall_success {W : Type} (h : CudaHeaders) (space : CodeSpace) (DEBUG : Bool)
    (line : Nat) (file fnText : String) (fn : Expr W) (fuel : Nat) (m : Machine W)
    (following : Stmt W) (hok : (fn m).1 = successCode h space) :
    ∃ m', checkedCall h space DEBUG line file fnText fn (fuel + 1) m
          = some (Control.next, m') ∧
      m'.status = successCode h space ∧
      m'.world = (fn m).2.world ∧
      m'.stderr = (fn m).2.stderr ∧
      seq (checkedCall h space DEBUG line file fnText fn (fuel + 1)) following m
          = following m' := by
  refine ⟨{ world := (fn m).2.world, status := (fn m).1, stderr := (fn m).2.stderr },
    ?_, hok, rfl, rfl, ?_⟩
  · rw [checkedCall_run, if_pos hok]
    simp [hok]
  · simp only [seq]
    rw [checkedCall_run, if_pos hok]
    simp [hok]

/-- The preceding theorem at `CUDA_CHECK` in a `DEBUG` build around an operation that returns 0, followed by an assignment to `status`. -/
theorem checkedCall_success_witness :
    ((fun m => (0, m) : Expr Unit) ⟨(), 5, []⟩).1 = successCode (cudaToolkit 4010) .driver ∧
    ∃ m', checkedCall (cudaToolkit 4010) .driver true 12 "a.cu" "cuInit(0)"
            (fun m => (0, m) : Expr Unit) 1 ⟨(), 5, []⟩ = some (Control.next, m') ∧
      m'.status = successCode (cudaToolkit 4010) .driver ∧
      m'.world = () ∧
      m'.stderr = [] ∧
      seq (checkedCall (cudaToolkit 4010) .driver true 12 "a.cu" "cuInit(0)"
            (fun m => (0, m) : Expr Unit) 1) (assignStatus (fun m => (7, m))) ⟨(), 5, []⟩
          = assignStatus (fun m => (7, m)) m' :=
  ⟨by decide,
    checkedCall_success (cudaToolkit 4010) .driver true 12 "a.cu" "cuInit(0)"
      (fun m => (0, m)) 0 ⟨(), 5, []⟩ (assignStatus (fun m => (7, m))) (by decide)⟩

/-- C6: in a `DEBUG` build a failing checked call at line `line` of file `file`
with operation text `fnText` and returned code `c` appends to `stderr` exactly
one text, `CUDA Runtime Failure (line <line> of file <file>):`, a newline, a
tab, then `<fnText> returned 0x<c in lowercase hex> (<description of c>)` and a
newline; this holds for `CUDA_CHECK` and for `CUDART_CHECK`, the description
being the one the describer of the code space gives for `c`. -/
theorem checkedCall_diagnostic {W : Type} (h : CudaHeaders) (space : CodeSpace)
    (line : Nat) (file fnText : String) (fn : Expr W) (fuel : Nat) (m : Machine W)
    (hfail : (fn m).1 ≠ successCode h space) :
    ∃ ctl m', checkedCall h space true line file fnText fn (fuel + 1) m = some (ctl, m') ∧
      m'.stderr = (fn m).2.stderr ++
        ["CUDA Runtime Failure (line " ++ formatDec line ++ " of file " ++ file ++ "):\n\t" ++
          fnText ++ " returned 0x" ++ formatHex (fn m).1 ++
          " (" ++ describe h space (fn m).1 ++ ")\n"] := by
  refine ⟨_, _, checkedCall_run h space true line file fnText fn fuel m, ?_⟩
  simp [hfail, diagnostic]

/-- The preceding theorem at `CUDA_CHECK( cuInit(0) )` on line 12 of `a.cu`, the operation returning 999. -/
theorem checkedCall_diagnostic_witness :
    ((fun m => (999, m) : Expr Unit) ⟨(), 0, []⟩).1 ≠ successCode (cudaToolkit 4010) .driver ∧
    ∃ ctl m', checkedCall (cudaToolkit 4010) .driver true 12 "a.cu" "cuInit(0)"
            (fun m => (999, m) : Expr Unit) 1 ⟨(), 0, []⟩ = some (ctl, m') ∧
      m'.stderr =
        ["CUDA Runtime Failure (line 12 of file a.cu):\n\tcuInit(0) returned 0x3e7 (CUDA_ERROR_UNKNOWN)\n"] :=
  ⟨by decide,
    checkedCall_diagnostic (cudaToolkit 4010) .driver 12 "a.cu" "cuInit(0)"
      (fun m => (999, m)) 0 ⟨(), 0, []⟩ (by decide)⟩

/-- C7: every checked call (either one, either build, either path) evaluates
its operation exactly once: the state it leaves is the state after one
evaluation with only `status` and, on a `DEBUG` failure, `stderr` changed; the
value stored in `status`, compared with the success code, printed and described
is the value of that evaluation; and an operation that counts its evaluations
has been evaluated one more time after the check, `status` holding the code of
that evaluation. -/
theorem checkedCall_evaluates_once {W : Type} (h : CudaHeaders) (space : CodeSpace)
    (DEBUG : Bool) (line : Nat) (file fnText : String) (fn : Expr W) (fuel : Nat)
    (m : Machine W) (code : Nat → Int) (n : Nat) (status0 : Int) (err0 : List String) :
    (∃ ctl out, checkedCall h space DEBUG line file fnText fn (fuel + 1) m =
        some (ctl, { world := (fn m).2.world, status := (fn m).1,
                     stderr := (fn m).2.stderr ++ out }) ∧
      (ctl = Control.next ↔ (fn m).1 = successCode h space) ∧
      (out = [] ∨
        out = [diagnostic line file fnText (fn m).1 (describe h space (fn m).1)])) ∧
    (∃ ctl m', checkedCall h space DEBUG line file fnText (countedCall code) (fuel + 1)
        { world := n, status := status0, stderr := err0 } = some (ctl, m') ∧
      m'.world = n + 1 ∧ m'.status = code n) := by
  refine ⟨⟨_, _, checkedCall_run h space DEBUG line file fnText fn fuel m, ?_, ?_⟩,
    ⟨_, _, checkedCall_run h space DEBUG line file fnText (countedCall code) fuel _,
      rfl, rfl⟩⟩
  · by_cases hs : (fn m).1 = successCode h space <;> simp [hs]
  · by_cases hc : DEBUG = true ∧ (fn m).1 ≠ successCode h space
    · right
      rw [if_pos hc]
    · left
      rw [if_neg hc]

/-- C9: a checked call writes to `stderr` exactly when the build is a `DEBUG`
build and the operation returned a code other than the success code, and then
it writes one message; the non-`DEBUG` definitions write nothing; and for every
result of the operation the two builds take the same control path and leave the
same `status` and world. -/
theorem checkedCall_writes_iff {W : Type} (h : CudaHeaders) (space : CodeSpace)
    (line : Nat) (file fnText : String) (fn : Expr W) (fuel : Nat) (m : Machine W) :
    (∀ DEBUG : Bool, ∃ ctl m' written,
      checkedCall h space DEBUG line file fnText fn (fuel + 1) m = some (ctl, m') ∧
      m'.stderr = (fn m).2.stderr ++ written ∧
      (written = [] ∨ ∃ msg, written = [msg]) ∧
      (written ≠ [] ↔ (DEBUG = true ∧ (fn m).1 ≠ successCode h space))) ∧
    (∃ ctl mD mR,
      checkedCall h space true line file fnText fn (fuel + 1) m = some (ctl, mD) ∧
      checkedCall h space false line file fnText fn (fuel + 1) m = some (ctl, mR) ∧
      mD.status = mR.status ∧ mD.world = mR.world ∧
      mR.stderr = (fn m).2.stderr) := by
  refine ⟨fun DEBUG => ⟨_, _, _, checkedCall_run h space DEBUG line file fnText fn fuel m,
      rfl, ?_, ?_⟩,
    ⟨_, _, _, checkedCall_run h space true line file fnText fn fuel m,
      checkedCall_run h space false line file fnText fn fuel m, rfl, rfl, ?_⟩⟩
  · by_cases hc : DEBUG = true ∧ (fn m).1 ≠ successCode h space
    · right
      exact ⟨_, if_pos hc⟩
    · left
      exact if_neg hc
  · by_cases hc : DEBUG = true ∧ (fn m).1 ≠ successCode h space
    · rw [if_pos hc]
      simp [hc]
    · rw [if_neg hc]
      simp [hc]
  · simp

/-! ## Theorems on the describer: versions and injectivity -/

/-- C8: the four enumerants `CUDA_ERROR_ASSERT`, `CUDA_ERROR_TOO_MANY_PEERS`,
`CUDA_ERROR_HOST_MEMORY_ALREADY_REGISTERED` and
`CUDA_ERROR_HOST_MEMORY_NOT_REGISTERED` are cases of the `switch` exactly when
`CUDA_VERSION >= 4010`: below 4010 the describer maps the value of each to the
fallback string, from 4010 on to its name; and on a value that is none of these
four the describer gives the same string whatever the version. -/
theorem chGetErrorString_version (h : CudaHeaders) (hd : DistinctLabels h) :
    (∀ X ∈ namesInsideIf,
      (X ∈ switchNames h ↔ h.CUDA_VERSION ≥ 4010) ∧
      (h.CUDA_VERSION < 4010 → chGetErrorString h (h.CUresult X) = fallbackString) ∧
      (h.CUDA_VERSION ≥ 4010 → chGetErrorString h (h.CUresult X) = X)) ∧
    (∀ (v w : Nat) (status : Int), (∀ X ∈ namesInsideIf, h.CUresult X ≠ status) →
      chGetErrorString { h with CUDA_VERSION := v } status =
        chGetErrorString { h with CUDA_VERSION := w } status) := by
  constructor
  · intro X hX
    have hout := insideIf_not_outside X hX
    refine ⟨?_, ?_, ?_⟩
    · constructor
      · intro hmem
        by_contra hv
        rw [switchNames_old h (by omega)] at hmem
        exact hout hmem
      · intro hv
        rw [switchNames_new h hv]
        exact insideIf_subset hX
    · intro hv
      apply chGetErrorString_of_not_mem
      intro Y hY heq
      have hYX : Y = X :=
        List.inj_on_of_nodup_map hd (switchNames_subset h hY) (insideIf_subset hX) heq
      rw [switchNames_old h hv, hYX] at hY
      exact hout hY
    · intro hv
      exact chGetErrorString_of_mem h hd (by rw [switchNames_new h hv]; exact insideIf_subset hX)
  · intro v w status hno
    have key : ∀ u : Nat, chGetErrorString { h with CUDA_VERSION := u } status =
        runSwitch ((namesBeforeIf ++ namesAfterIf).map (ErrorValue h)) fallbackString status := by
      intro u
      have hfind : ∀ l : List String, (∀ X ∈ l, h.CUresult X ≠ status) →
          (l.map (ErrorValue h)).find? (fun c => c.label == status) = none := by
        intro l hl
        rw [List.find?_eq_none]
        intro c hc
        obtain ⟨X, hXl, rfl⟩ := List.mem_map.mp hc
        simpa [ErrorValue] using hl X hXl
      unfold chGetErrorString runSwitch switchCases switchNames
      have hE : ErrorValue { h with CUDA_VERSION := u } = ErrorValue h := rfl
      rw [hE]
      by_cases hu : u ≥ 4010
      · simp only [hu, if_true, ge_iff_le, List.map_append, List.find?_append, hfind _ hno,
          Option.or_none, Option.none_or]
      · simp only [hu, if_false, ge_iff_le, List.map_append, List.find?_append, List.map_nil,
          List.find?_nil, Option.or_none, Option.none_or]
    rw [key v, key w]

/-- The preceding theorem at a toolkit of version 4000: the value 710 gets the fallback string, and the value 2 the same string under versions 3020 and 5000. -/
theorem chGetErrorString_version_witness :
    DistinctLabels (cudaToolkit 4000) ∧
    chGetErrorString (cudaToolkit 4000) 710 = fallbackString ∧
    (∀ X ∈ namesInsideIf, (cudaToolkit 4000).CUresult X ≠ 2) ∧
    chGetErrorString { cudaToolkit 4000 with CUDA_VERSION := 3020 } 2 =
      chGetErrorString { cudaToolkit 4000 with CUDA_VERSION := 5000 } 2 :=
  ⟨cudaToolkit_distinct 4000,
    ((chGetErrorString_version (cudaToolkit 4000) (cudaToolkit_distinct 4000)).1
      "CUDA_ERROR_ASSERT" (by decide)).2.1 (by decide),
    by decide,
    (chGetErrorString_version (cudaToolkit 4000) (cudaToolkit_distinct 4000)).2
      3020 5000 2 (by decide)⟩

/-- C10: the describer tells the cases apart: two names of the `switch` with
different values get different strings, no name of the `switch` gets the
fallback string, the fallback string is returned exactly for the values no case
has, and two values with the same description other than the fallback are the
same value. -/
theorem chGetErrorString_one_to_one (h : CudaHeaders) :
    (∀ X ∈ switchNames h, ∀ Y ∈ switchNames h, h.CUresult X ≠ h.CUresult Y →
      chGetErrorString h (h.CUresult X) ≠ chGetErrorString h (h.CUresult Y)) ∧
    (∀ X ∈ switchNames h, chGetErrorString h (h.CUresult X) ≠ fallbackString) ∧
    (∀ s : Int, chGetErrorString h s = fallbackString ↔
      ∀ X ∈ switchNames h, h.CUresult X ≠ s) ∧
    (∀ s t : Int, chGetErrorString h s = chGetErrorString h t →
      chGetErrorString h s ≠ fallbackString → s = t) := by
  have hrec : ∀ s : Int, (∃ X ∈ switchNames h, h.CUresult X = s) →
      ∃ Y ∈ switchNames h, h.CUresult Y = s ∧ chGetErrorString h s = Y := by
    intro s ⟨X, hX, hXs⟩
    rcases chGetErrorString_spec h s with hyes | ⟨hno, _⟩
    · exact hyes
    · exact absurd hXs (hno X hX)
  have hnf : ∀ s : Int, (∃ X ∈ switchNames h, h.CUresult X = s) →
      chGetErrorString h s ≠ fallbackString := by
    intro s hs heq
    obtain ⟨Y, hY, _, hr⟩ := hrec s hs
    rw [hr] at heq
    exact fallbackString_not_name (heq ▸ switchNames_subset h hY)
  have hiff : ∀ s : Int, chGetErrorString h s = fallbackString ↔
      ∀ X ∈ switchNames h, h.CUresult X ≠ s := by
    intro s
    constructor
    · intro heq X hX hXs
      exact hnf s ⟨X, hX, hXs⟩ heq
    · exact chGetErrorString_of_not_mem h s
  have hinj : ∀ s t : Int, chGetErrorString h s = chGetErrorString h t →
      chGetErrorString h s ≠ fallbackString → s = t := by
    intro s t hst hs
    have ht : chGetErrorString h t ≠ fallbackString := hst ▸ hs
    rcases chGetErrorString_spec h s with ⟨Y, _, hYs, hrs⟩ | ⟨_, hr⟩
    · rcases chGetErrorString_spec h t with ⟨Z, _, hZt, hrt⟩ | ⟨_, hr⟩
      · have hYZ : Y = Z := by rw [← hrs, ← hrt, hst]
        rw [← hYs, ← hZt, hYZ]
      · exact absurd hr ht
    · exact absurd hr hs
  refine ⟨?_, fun X hX => hnf _ ⟨X, hX, rfl⟩, hiff, hinj⟩
  intro X hX Y _ hne heq
  exact hne (hinj _ _ heq (hnf _ ⟨X, hX, rfl⟩))

/-- The preceding theorem at `CUDA_ERROR_OUT_OF_MEMORY` and `CUDA_ERROR_UNKNOWN`. -/
theorem chGetErrorString_one_to_one_witness :
    (cudaToolkit 4010).CUresult "CUDA_ERROR_OUT_OF_MEMORY" ≠
      (cudaToolkit 4010).CUresult "CUDA_ERROR_UNKNOWN" ∧
    chGetErrorString (cudaToolkit 4010) ((cudaToolkit 4010).CUresult "CUDA_ERROR_OUT_OF_MEMORY")
      ≠ chGetErrorString (cudaToolkit 4010) ((cudaToolkit 4010).CUresult "CUDA_ERROR_UNKNOWN") :=
  ⟨by decide,
    (chGetErrorString_one_to_one (cudaToolkit 4010)).1
      "CUDA_ERROR_OUT_OF_MEMORY" (by decide) "CUDA_ERROR_UNKNOWN" (by decide) (by decide)⟩

/-! ## The checked call followed by a semicolon -/

/-- C5 (the code at the input `if ( c ) CHECK( fn ); else g;`): the replacement
list of each checked call already ends in a semicolon, so the call with its own
semicolon is a `do`-`while` statement and an empty statement; as the unbraced
branch of an `if` it cuts the `else` off, which is a syntax error, whereas the
same call inside a block parses as the branch of the `if`-`else`. -/
theorem checkedCall_semicolon_detaches_else (space : CodeSpace) (DEBUG : Bool)
    (c fn g : String) (fuel : Nat) :
    (expandCheck space DEBUG [.word fn] fn).getLast? = some .semi ∧
    parseBody (fuel + 9) (ifCheckElse space DEBUG c fn g) = .error .syntaxError ∧
    (∃ body cond, parseBody (fuel + 9) (ifBlockCheckElse space DEBUG c fn g) =
      .ok [.ifElse [.word c] (.compound [.doWhile body cond, .null]) (.expr [.word g])]) := by
  cases space <;> cases DEBUG <;>
    exact ⟨rfl, rfl, _, _, rfl⟩

end ChError
